import Mathlib

/-
Shallow embedding of the focus-timer core of src/index.js: the per-user
session record, the timer bookkeeping, the stats aggregator
(addCompletedSession), the timer-service operations (startFocusTimer,
pauseFocusTimer, resumeFocusTimer, stopFocusTimer, handleTimerComplete)
and the productivity score (calculateProductivityScore).

Timestamps are rationals measured in milliseconds (JavaScript Date
arithmetic); study dates are integers counting calendar days (the code
compares YYYY-MM-DD strings via moment day differences); committed
durations are integers (the code always passes Math.round results).
Notification sends/edits are external best-effort collaborators and carry
no session state; the message id returned by the send in startFocusTimer
is injected as a parameter.
-/

namespace StudyFocus

/-- JavaScript Math.round on a rational: floor of x + 1/2. -/
def jsRound (q : ℚ) : ℤ := (q + 1/2).floor

/-- jsRound agrees with the mathematical floor of x + 1/2. -/
theorem jsRound_eq (q : ℚ) : jsRound q = ⌊q + 1/2⌋ :=
  (Rat.floor_def' (q + 1/2)).trans Rat.floor_def.symm

/-- Per-user session record, fields exactly as initialized in
initializeUserData (src/index.js lines 43-51). -/
structure Session where
  isStudying : Bool
  studyStartTime : Option ℚ
  pauseStartTime : Option ℚ
  totalPausedTime : ℚ
  pausedDuration : ℚ
  messageId : Option ℕ
  plannedDuration : ℤ
deriving DecidableEq

/-- Per-user statistics record, fields as initialized in
initializeUserData (src/index.js lines 52-60); dailyStudyTime maps a day
number to accumulated minutes. -/
structure Stats where
  totalStudyTime : ℤ
  totalSessions : ℕ
  longestSession : ℤ
  totalCompletedTasks : ℕ
  streak : ℕ
  lastStudyDate : Option ℤ
  dailyStudyTime : ℤ → ℤ

/-- Scheduled jobs held in timerStore for one user: the recurring update
job (closing over startTime and endTime), the one-shot end job (its fire
time and the duration argument it closes over), and the break reminder. -/
structure Timers where
  update : Option (ℚ × ℚ)
  endJob : Option (ℚ × ℤ)
  breakJob : Option ℚ
deriving DecidableEq

/-- Complete per-user state: session, stats, scheduled timers, plus a log
of every addCompletedSession call (the committed minutes, in order). -/
structure UserState where
  session : Session
  stats : Stats
  timers : Timers
  commits : List ℤ

/-- Fresh session as built by initializeUserData. -/
def initialSession : Session :=
  { isStudying := false, studyStartTime := none, pauseStartTime := none,
    totalPausedTime := 0, pausedDuration := 0, messageId := none,
    plannedDuration := 0 }

/-- Fresh stats as built by initializeUserData. -/
def initialStats : Stats :=
  { totalStudyTime := 0, totalSessions := 0, longestSession := 0,
    totalCompletedTasks := 0, streak := 0, lastStudyDate := none,
    dailyStudyTime := fun _ => 0 }

/-- Fresh per-user state as built on first access. -/
def initialUserData : UserState :=
  { session := initialSession, stats := initialStats,
    timers := { update := none, endJob := none, breakJob := none },
    commits := [] }

/-- addCompletedSession (src/index.js lines 209-257): adds a completed
session of durationMinutes on day today to the stats. -/
def addCompletedSession (today : ℤ) (durationMinutes : ℤ) (s : Stats) : Stats :=
  { s with
    totalStudyTime := s.totalStudyTime + durationMinutes,
    totalSessions := s.totalSessions + 1,
    longestSession := if durationMinutes > s.longestSession then durationMinutes
                      else s.longestSession,
    dailyStudyTime := fun day =>
      if day = today then s.dailyStudyTime day + durationMinutes
      else s.dailyStudyTime day,
    streak := match s.lastStudyDate with
      | some last =>
          if today - last = 1 then s.streak + 1
          else if today = last then s.streak
          else 1
      | none => 1,
    lastStudyDate := some today }

/-- Applies addCompletedSession to the stats and appends the committed
minutes to the call log. -/
def recordCommit (today : ℤ) (durationMinutes : ℤ) (st : UserState) : UserState :=
  { st with stats := addCompletedSession today durationMinutes st.stats,
            commits := st.commits ++ [durationMinutes] }

/-- stopFocusTimer (src/index.js lines 942-978): cancels the update and
end jobs, commits round((now - studyStartTime - totalPausedTime)/60000)
when a running session has elapsed more than one minute, and resets the
session fields (plannedDuration is not in the reset object and is kept). -/
def stopFocusTimer (now : ℚ) (today : ℤ) (st : UserState) : UserState :=
  let st1 := { st with timers := { st.timers with update := none, endJob := none } }
  let st2 :=
    match st1.session.studyStartTime with
    | some t0 =>
        if st1.session.isStudying then
          let studyDuration := (now - t0 - st1.session.totalPausedTime) / 60000
          if studyDuration > 1 then recordCommit today (jsRound studyDuration) st1
          else st1
        else st1
    | none => st1
  { st2 with session := { st2.session with
      isStudying := false, studyStartTime := none, pauseStartTime := none,
      totalPausedTime := 0, pausedDuration := 0, messageId := none } }

/-- startFocusTimer (src/index.js lines 574-680): rejects a non-positive
duration with no state change, otherwise stops any prior timer, resets the
session for a new run, stores the id of the freshly sent timer message,
and schedules the recurring update job and the one-shot end job at
startTime + duration minutes. Returns the new state and a success flag
(false models the thrown Invalid timer parameters error). -/
def startFocusTimer (now : ℚ) (today : ℤ) (duration : ℤ) (msgId : ℕ)
    (st : UserState) : UserState × Bool :=
  if duration ≤ 0 then (st, false)
  else
    let st1 := stopFocusTimer now today st
    let endTime := now + (duration : ℚ) * 60000
    let session := { st1.session with
        isStudying := true, studyStartTime := some now, pauseStartTime := none,
        totalPausedTime := 0, pausedDuration := 0, plannedDuration := duration,
        messageId := some msgId }
    let timers := { st1.timers with
        update := some (now, endTime), endJob := some (endTime, duration) }
    ({ st1 with session := session, timers := timers }, true)

/-- pauseFocusTimer (src/index.js lines 985-1013): fails (returns false,
state untouched) unless studying and not already paused; otherwise records
the pause start instant. -/
def pauseFocusTimer (now : ℚ) (st : UserState) : UserState × Bool :=
  if st.session.isStudying = false ∨ st.session.pauseStartTime ≠ none then
    (st, false)
  else
    ({ st with session := { st.session with pauseStartTime := some now } }, true)

/-- resumeFocusTimer (src/index.js lines 1020-1054): fails (returns false,
state untouched) unless studying and paused; otherwise adds the pause
interval to totalPausedTime (milliseconds) and pausedDuration (minutes)
and clears pauseStartTime. -/
def resumeFocusTimer (now : ℚ) (st : UserState) : UserState × Bool :=
  if st.session.isStudying = false then (st, false)
  else
    match st.session.pauseStartTime with
    | none => (st, false)
    | some p =>
        let pauseDuration := now - p
        ({ st with session := { st.session with
            pauseStartTime := none,
            totalPausedTime := st.session.totalPausedTime + pauseDuration,
            pausedDuration := st.session.pausedDuration + pauseDuration / 60000 } },
         true)

/-- handleTimerComplete (src/index.js lines 770-936): returns unchanged
unless the user is still studying; otherwise commits
round(duration - pausedDuration / 60) (duration when no pause happened),
then calls stopFocusTimer to clean up, then schedules the 5-minute break
reminder. The duration argument is the one the scheduled end job closed
over at scheduling time. -/
def handleTimerComplete (now : ℚ) (today : ℤ) (duration : ℤ)
    (st : UserState) : UserState :=
  if st.session.isStudying = false then st
  else
    let actualDuration : ℚ :=
      if st.session.pausedDuration > 0
      then (duration : ℚ) - st.session.pausedDuration / 60
      else (duration : ℚ)
    let st1 := recordCommit today (jsRound actualDuration) st
    let st2 := stopFocusTimer now today st1
    { st2 with timers := { st2.timers with breakJob := some (now + 5 * 60000) } }

/-- calculateProductivityScore (src/index.js lines 1276-1303): four
components, each min(25, round(value / cap * 25)), summed. dailyStats is
the list of per-day minutes for the last 7 days. -/
def scoreComponent (value : ℚ) (cap : ℚ) : ℤ :=
  min 25 (jsRound (value / cap * 25))

/-- calculateProductivityScore body: activity (7-day average against cap
120), streak (cap 7), sessions (cap 30), tasks (cap 50). -/
def calculateProductivityScore (stats : Stats) (dailyStats : List ℤ) : ℤ :=
  let maxDailyTime : ℚ := 120
  let maxStreak : ℚ := 7
  let maxSessions : ℚ := 30
  let maxCompletedTasks : ℚ := 50
  let weeklyAvg : ℚ := ((dailyStats.sum : ℤ) : ℚ) / 7
  let activeScore := scoreComponent weeklyAvg maxDailyTime
  let streakScore := scoreComponent (stats.streak : ℚ) maxStreak
  let sessionScore := scoreComponent (stats.totalSessions : ℚ) maxSessions
  let taskScore := scoreComponent (stats.totalCompletedTasks : ℚ) maxCompletedTasks
  activeScore + streakScore + sessionScore + taskScore

/-- The three session phases; the code stores no explicit enum: Idle means
not studying, Paused means studying with a pause in progress, Running
means studying with no pause in progress (exactly the guards pause and
resume read). -/
inductive SessionPhase
  | Idle
  | Running
  | Paused
deriving DecidableEq

/-- Phase of a session record as the guards in the code read it. -/
def sessionState (s : Session) : SessionPhase :=
  if s.isStudying = false then .Idle
  else if s.pauseStartTime = none then .Running
  else .Paused

/-- States reachable from the fresh per-user record by the timer-service
operations. -/
inductive Reachable : UserState → Prop
  | init : Reachable initialUserData
  | start (now : ℚ) (today : ℤ) (duration : ℤ) (msgId : ℕ) {st : UserState} :
      Reachable st → Reachable (startFocusTimer now today duration msgId st).1
  | pause (now : ℚ) {st : UserState} :
      Reachable st → Reachable (pauseFocusTimer now st).1
  | resume (now : ℚ) {st : UserState} :
      Reachable st → Reachable (resumeFocusTimer now st).1
  | stop (now : ℚ) (today : ℤ) {st : UserState} :
      Reachable st → Reachable (stopFocusTimer now today st)
  | complete (now : ℚ) (today : ℤ) (duration : ℤ) {st : UserState} :
      Reachable st → Reachable (handleTimerComplete now today duration st)

/-- A completion callback arriving when the user is not studying is a
no-op: handleTimerComplete returns its input unchanged. -/
theorem handleTimerComplete_not_studying (now : ℚ) (today : ℤ) (duration : ℤ)
    (st : UserState) (h : st.session.isStudying = false) :
    handleTimerComplete now today duration st = st := by
  simp [handleTimerComplete, h]

/-- addCompletedSession always increments totalSessions by one. -/
theorem addCompletedSession_totalSessions (today d : ℤ) (s : Stats) :
    (addCompletedSession today d s).totalSessions = s.totalSessions + 1 := rfl

/-- stopFocusTimer never decreases totalSessions. -/
theorem stopFocusTimer_totalSessions_le (now : ℚ) (today : ℤ) (st : UserState) :
    st.stats.totalSessions ≤ (stopFocusTimer now today st).stats.totalSessions := by
  simp only [stopFocusTimer]
  cases hs : st.session.studyStartTime with
  | none => simp
  | some t0 =>
      by_cases h1 : st.session.isStudying = true
      · by_cases h2 : 1 < (now - t0 - st.session.totalPausedTime) / 60000
        · simp [h1, h2, recordCommit, addCompletedSession_totalSessions]
        · simp [h1, h2]
      · simp [h1]

/-- The session left behind by stopFocusTimer is not studying. -/
theorem stopFocusTimer_not_studying (now : ℚ) (today : ℤ) (st : UserState) :
    (stopFocusTimer now today st).session.isStudying = false := rfl

/-- The §8 completion scenario: a 60-minute session started at t = 0. -/
def c1state1 : UserState := (startFocusTimer 0 0 60 1 initialUserData).1

/-- The scenario session paused at t = +5 minutes. -/
def c1state2 : UserState := (pauseFocusTimer 300000 c1state1).1

/-- The scenario session resumed at t = +15 minutes (a 10-minute pause). -/
def c1state3 : UserState := (resumeFocusTimer 900000 c1state2).1

/-- The scenario state after the completion trigger fires at the original
deadline t = +60 minutes. -/
def c1state4 : UserState := handleTimerComplete 3600000 0 60 c1state3

/-- C1: in the scenario start(60) at t=0, pause at +5min, resume at +15min
(pausedDuration = 10 minutes), completion firing at +60min, the completion
handler's commitSession call records 60 minutes, not the specified 50: the
code computes duration - pausedDuration / 60, dividing a quantity already
in minutes by 60 (the §8 scenario expects 50). The cleanup call inside the
handler then commits a second time with 50, so the stats end with
totalStudyTime 110 over 2 sessions. -/
theorem c1_completion_commit_eval :
    c1state3.session.pausedDuration = 10
    ∧ c1state4.commits = [60, 50]
    ∧ c1state4.stats.totalStudyTime = 110
    ∧ c1state4.stats.totalSessions = 2 := by
  refine ⟨?_, ?_, ?_, ?_⟩ <;>
    norm_num [c1state4, c1state3, c1state2, c1state1, startFocusTimer,
      stopFocusTimer, pauseFocusTimer, resumeFocusTimer, handleTimerComplete,
      recordCommit, addCompletedSession, initialUserData, initialSession,
      initialStats, jsRound_eq]

/-- A 60-minute session started at t = 0, never paused. -/
def c2state1 : UserState := (startFocusTimer 0 0 60 1 initialUserData).1

/-- The state after its completion trigger fires at t = +60 minutes. -/
def c2state2 : UserState := handleTimerComplete 3600000 0 60 c2state1

/-- C2: firing the completion trigger for a Running 60-minute session
calls addCompletedSession twice, not once: once directly in
handleTimerComplete (60) and once via the stopFocusTimer cleanup (60),
so totalSessions becomes 2; invoking the handler again afterwards is
indeed a no-op. -/
theorem c2_completion_double_commit :
    c2state2.stats.totalSessions = 2
    ∧ c2state2.commits = [60, 60]
    ∧ handleTimerComplete 3700000 0 60 c2state2 = c2state2 := by
  have hstudy : c2state2.session.isStudying = false := by
    norm_num [c2state2, c2state1, startFocusTimer, stopFocusTimer,
      handleTimerComplete, recordCommit, initialUserData, initialSession]
  refine ⟨?_, ?_, handleTimerComplete_not_studying _ _ _ _ hstudy⟩ <;>
    norm_num [c2state2, c2state1, startFocusTimer, stopFocusTimer,
      handleTimerComplete, recordCommit, addCompletedSession, initialUserData,
      initialSession, initialStats, jsRound_eq]

/-- Committing and then stopping never yields fewer than one extra
session in the stats. -/
theorem commit_then_stop_le (now : ℚ) (today d : ℤ) (st : UserState) :
    st.stats.totalSessions + 1 ≤
      (stopFocusTimer now today (recordCommit today d st)).stats.totalSessions := by
  have h := stopFocusTimer_totalSessions_le now today (recordCommit today d st)
  simpa [recordCommit, addCompletedSession_totalSessions] using h

/-- C3: for a studying session with start time t0, stopFocusTimer commits
round((now - t0 - totalPausedTime) / 60000) to the stats if and only if
that elapsed value exceeds one minute, incrementing totalSessions exactly
then; and the two §8 scenarios hold: a 30-minute session stopped after 20
minutes yields totalSessions 1 and totalStudyTime 20, while a 25-minute
session stopped after 30 seconds yields totalSessions 0. -/
theorem c3_stop_commit_iff (now : ℚ) (today : ℤ) (st : UserState) (t0 : ℚ)
    (hrun : st.session.isStudying = true)
    (hstart : st.session.studyStartTime = some t0) :
    ((stopFocusTimer now today st).commits =
        st.commits ++
          (if 1 < (now - t0 - st.session.totalPausedTime) / 60000
           then [jsRound ((now - t0 - st.session.totalPausedTime) / 60000)]
           else [])
      ∧ (stopFocusTimer now today st).stats.totalSessions =
          st.stats.totalSessions +
            (if 1 < (now - t0 - st.session.totalPausedTime) / 60000 then 1 else 0))
    ∧ (stopFocusTimer 1200000 0 (startFocusTimer 0 0 30 1 initialUserData).1).stats.totalSessions = 1
    ∧ (stopFocusTimer 1200000 0 (startFocusTimer 0 0 30 1 initialUserData).1).stats.totalStudyTime = 20
    ∧ (stopFocusTimer 30000 0 (startFocusTimer 0 0 25 1 initialUserData).1).stats.totalSessions = 0 := by
  refine ⟨?_, ?_, ?_, ?_⟩
  · simp only [stopFocusTimer, hstart]
    by_cases h2 : 1 < (now - t0 - st.session.totalPausedTime) / 60000
    · simp [hrun, h2, recordCommit, addCompletedSession]
    · simp [hrun, h2]
  all_goals
    norm_num [startFocusTimer, stopFocusTimer, recordCommit,
      addCompletedSession, initialUserData, initialSession, initialStats,
      jsRound_eq]

/-- Witness for C3: the commit log produced by stopping the concrete
30-minute session after 20 minutes, through the theorem. -/
theorem c3_stop_commit_iff_witness :
    (stopFocusTimer 1200000 0 (startFocusTimer 0 0 30 1 initialUserData).1).commits =
      (startFocusTimer 0 0 30 1 initialUserData).1.commits ++
        (if 1 < ((1200000 : ℚ) - 0 -
              (startFocusTimer 0 0 30 1 initialUserData).1.session.totalPausedTime) / 60000
         then [jsRound (((1200000 : ℚ) - 0 -
              (startFocusTimer 0 0 30 1 initialUserData).1.session.totalPausedTime) / 60000)]
         else []) :=
  ((c3_stop_commit_iff 1200000 0 (startFocusTimer 0 0 30 1 initialUserData).1 0
      (by norm_num [startFocusTimer, stopFocusTimer, initialUserData, initialSession])
      (by norm_num [startFocusTimer, stopFocusTimer, initialUserData, initialSession])).1).1

/-- Session A: a 2-minute session started at t = 0. -/
def c4stateA : UserState := (startFocusTimer 0 0 2 1 initialUserData).1

/-- Session B: a 60-minute session started at t = +30s, superseding A. -/
def c4stateB : UserState := (startFocusTimer 30000 0 60 2 c4stateA).1

/-- State after session A's completion callback (closing over duration 2),
whose cancellation is assumed to have failed, fires at t = +2 minutes
while session B is running. -/
def c4stateC : UserState := handleTimerComplete 120000 0 2 c4stateB

/-- C4 counterexample: the Session holds no generation counter, and a
completion callback of a superseded timer firing while the next session is
Running is not a dropped no-op: after starting a 2-minute session at t=0
and a 60-minute session at t=+30s, letting the first session's completion
callback fire at t=+2min commits twice (totalSessions goes from 0 to 2,
commit log [2, 2]) and resets the running session to idle. -/
theorem c4_stale_completion_not_noop :
    c4stateB.stats.totalSessions = 0
    ∧ c4stateB.session.isStudying = true
    ∧ c4stateC.stats.totalSessions = 2
    ∧ c4stateC.session.isStudying = false
    ∧ c4stateC.commits = [2, 2] := by
  refine ⟨?_, ?_, ?_, ?_, ?_⟩ <;>
    norm_num [c4stateC, c4stateB, c4stateA, startFocusTimer, stopFocusTimer,
      handleTimerComplete, recordCommit, addCompletedSession, initialUserData,
      initialSession, initialStats, jsRound_eq]

/-- C4 amended: the code maintains no generation counter; the only
staleness guard in the completion handler is the isStudying flag. A
completion callback is silently dropped (a strict no-op) exactly when the
user is not studying; any completion callback arriving while a session is
studying — including a stale one whose cancellation failed — is processed:
it commits at least one session to the stats and resets the session to
not studying. -/
theorem c4_completion_guard (now : ℚ) (today : ℤ) (duration : ℤ)
    (st : UserState) :
    (st.session.isStudying = false → handleTimerComplete now today duration st = st)
    ∧ (st.session.isStudying = true →
        st.stats.totalSessions + 1 ≤
            (handleTimerComplete now today duration st).stats.totalSessions
          ∧ (handleTimerComplete now today duration st).session.isStudying = false) := by
  refine ⟨handleTimerComplete_not_studying now today duration st, ?_⟩
  intro h
  simp only [handleTimerComplete, h]
  norm_num
  exact ⟨commit_then_stop_le _ _ _ _, stopFocusTimer_not_studying _ _ _⟩

/-- Witness for C4's amended theorem: both guard directions at concrete
states. -/
theorem c4_completion_guard_witness :
    handleTimerComplete 0 0 5 initialUserData = initialUserData
    ∧ (startFocusTimer 0 0 60 1 initialUserData).1.stats.totalSessions + 1 ≤
        (handleTimerComplete 3600000 0 60
          (startFocusTimer 0 0 60 1 initialUserData).1).stats.totalSessions :=
  ⟨(c4_completion_guard 0 0 5 initialUserData).1 rfl,
   ((c4_completion_guard 3600000 0 60 (startFocusTimer 0 0 60 1 initialUserData).1).2
      (by norm_num [startFocusTimer, stopFocusTimer, initialUserData, initialSession])).1⟩

/-- The two session invariants of interest: a pause start is only recorded
while studying, and the minute-valued pause accumulator agrees with the
millisecond-valued one. -/
def PauseInv (st : UserState) : Prop :=
  (st.session.pauseStartTime ≠ none → st.session.isStudying = true)
  ∧ st.session.pausedDuration = st.session.totalPausedTime / 60000

/-- The fresh per-user record satisfies the pause invariants. -/
theorem pauseInv_init : PauseInv initialUserData := by
  refine ⟨by simp [initialUserData, initialSession], ?_⟩
  norm_num [initialUserData, initialSession]

/-- stopFocusTimer re-establishes the pause invariants unconditionally. -/
theorem pauseInv_stop (now : ℚ) (today : ℤ) (st : UserState) :
    PauseInv (stopFocusTimer now today st) := by
  constructor
  · intro hne
    exact absurd rfl hne
  · show (0 : ℚ) = 0 / 60000
    norm_num

/-- startFocusTimer preserves the pause invariants. -/
theorem pauseInv_start (now : ℚ) (today duration : ℤ) (msgId : ℕ)
    (st : UserState) (h : PauseInv st) :
    PauseInv (startFocusTimer now today duration msgId st).1 := by
  simp only [startFocusTimer]
  split_ifs
  · exact h
  · refine ⟨by simp, ?_⟩
    show (0 : ℚ) = 0 / 60000
    norm_num

/-- pauseFocusTimer preserves the pause invariants. -/
theorem pauseInv_pause (now : ℚ) (st : UserState) (h : PauseInv st) :
    PauseInv (pauseFocusTimer now st).1 := by
  simp only [pauseFocusTimer]
  split_ifs with hc
  · exact h
  · push_neg at hc
    refine ⟨fun _ => ?_, h.2⟩
    simpa using hc.1

/-- resumeFocusTimer preserves the pause invariants. -/
theorem pauseInv_resume (now : ℚ) (st : UserState) (h : PauseInv st) :
    PauseInv (resumeFocusTimer now st).1 := by
  simp only [resumeFocusTimer]
  split_ifs with hc
  · exact h
  · cases hp : st.session.pauseStartTime with
    | none => simpa [hp] using h
    | some p =>
        refine ⟨by simp, ?_⟩
        show st.session.pausedDuration + (now - p) / 60000 =
          (st.session.totalPausedTime + (now - p)) / 60000
        rw [h.2, add_div]

/-- handleTimerComplete preserves the pause invariants. -/
theorem pauseInv_complete (now : ℚ) (today duration : ℤ) (st : UserState)
    (h : PauseInv st) : PauseInv (handleTimerComplete now today duration st) := by
  by_cases hs : st.session.isStudying = false
  · rw [handleTimerComplete_not_studying now today duration st hs]
    exact h
  · simp only [handleTimerComplete, if_neg hs]
    exact pauseInv_stop now today _

/-- Every reachable per-user state satisfies the pause invariants. -/
theorem reachable_pauseInv {st : UserState} (h : Reachable st) : PauseInv st := by
  induction h with
  | init => exact pauseInv_init
  | start now today duration msgId _ ih => exact pauseInv_start _ _ _ _ _ ih
  | pause now _ ih => exact pauseInv_pause _ _ ih
  | resume now _ ih => exact pauseInv_resume _ _ ih
  | stop now today _ => exact pauseInv_stop _ _ _
  | complete now today duration _ ih => exact pauseInv_complete _ _ _ _ ih

/-- C5: in every reachable per-user state, pauseStartTime is non-null if
and only if the session is in the Paused phase; reachability is closure
under start, pause, resume, stop and the completion handler, so every
operation preserves the invariant. -/
theorem c5_pause_invariant (st : UserState) (h : Reachable st) :
    st.session.pauseStartTime ≠ none ↔ sessionState st.session = .Paused := by
  have inv := (reachable_pauseInv h).1
  constructor
  · intro hne
    have hs := inv hne
    simp [sessionState, hs, hne]
  · intro hp hps
    cases hb : st.session.isStudying <;> simp [sessionState, hb, hps] at hp

/-- Witness for C5 at the concrete reachable state obtained by starting a
60-minute session and pausing it. -/
theorem c5_pause_invariant_witness :
    (pauseFocusTimer 300000 (startFocusTimer 0 0 60 1 initialUserData).1).1.session.pauseStartTime ≠ none
    ↔ sessionState (pauseFocusTimer 300000 (startFocusTimer 0 0 60 1 initialUserData).1).1.session = .Paused :=
  c5_pause_invariant _
    (Reachable.pause 300000 (Reachable.start 0 0 60 1 Reachable.init))

/-- C10: in every reachable per-user state the two pause accumulators are
consistent: pausedDuration (minutes) equals totalPausedTime (milliseconds)
divided by 60000. -/
theorem c10_paused_accumulators (st : UserState) (h : Reachable st) :
    st.session.pausedDuration = st.session.totalPausedTime / 60000 :=
  (reachable_pauseInv h).2

/-- Witness for C10 at the concrete reachable state obtained by starting a
60-minute session, pausing at +5 minutes and resuming at +15 minutes. -/
theorem c10_paused_accumulators_witness :
    (resumeFocusTimer 900000 (pauseFocusTimer 300000
        (startFocusTimer 0 0 60 1 initialUserData).1).1).1.session.pausedDuration =
      (resumeFocusTimer 900000 (pauseFocusTimer 300000
        (startFocusTimer 0 0 60 1 initialUserData).1).1).1.session.totalPausedTime / 60000 :=
  c10_paused_accumulators _
    (Reachable.resume 900000
      (Reachable.pause 300000 (Reachable.start 0 0 60 1 Reachable.init)))

/-- C6: pause never touches the scheduled timers (so the one-shot end job
is neither cancelled nor rescheduled) and, on a Running session, changes
only pauseStartTime; resume also leaves the timers alone and adds exactly
the pause interval to totalPausedTime (milliseconds) and its minute value
to pausedDuration; start schedules the end job to fire at
startTime + duration minutes, the wall-clock deadline later operations
never move. -/
theorem c6_pause_frame (st : UserState) (now : ℚ) :
    (pauseFocusTimer now st).1.timers = st.timers
    ∧ (resumeFocusTimer now st).1.timers = st.timers
    ∧ (st.session.isStudying = true → st.session.pauseStartTime = none →
        (pauseFocusTimer now st).1.session =
          { st.session with pauseStartTime := some now })
    ∧ (∀ p : ℚ, st.session.isStudying = true →
        st.session.pauseStartTime = some p →
        (resumeFocusTimer now st).1.session.totalPausedTime =
            st.session.totalPausedTime + (now - p)
        ∧ (resumeFocusTimer now st).1.session.pausedDuration =
            st.session.pausedDuration + (now - p) / 60000)
    ∧ (∀ (today duration : ℤ) (msgId : ℕ), 0 < duration →
        (startFocusTimer now today duration msgId st).1.timers.endJob =
            some (now + (duration : ℚ) * 60000, duration)
        ∧ (startFocusTimer now today duration msgId st).1.session.studyStartTime =
            some now) := by
  refine ⟨?_, ?_, ?_, ?_, ?_⟩
  · simp only [pauseFocusTimer]
    split_ifs <;> rfl
  · simp only [resumeFocusTimer]
    split_ifs
    · rfl
    · cases hp : st.session.pauseStartTime <;> simp [hp]
  · intro h1 h2
    simp [pauseFocusTimer, h1, h2]
  · intro p h1 hp
    simp [resumeFocusTimer, h1, hp]
  · intro today duration msgId hd
    have hneg : ¬ duration ≤ 0 := not_le.mpr hd
    simp [startFocusTimer, hneg]

/-- Witness for C6 on the concrete 60-minute session: pausing at +5min
leaves the timers untouched and only sets pauseStartTime; resuming at
+15min adds the 10-minute interval to both accumulators; the end job was
scheduled at startTime + 60 minutes. -/
theorem c6_pause_frame_witness :
    (pauseFocusTimer 300000 (startFocusTimer 0 0 60 1 initialUserData).1).1.timers =
        (startFocusTimer 0 0 60 1 initialUserData).1.timers
    ∧ (resumeFocusTimer 900000 (pauseFocusTimer 300000
          (startFocusTimer 0 0 60 1 initialUserData).1).1).1.session.totalPausedTime =
        (pauseFocusTimer 300000
          (startFocusTimer 0 0 60 1 initialUserData).1).1.session.totalPausedTime +
          ((900000 : ℚ) - 300000)
    ∧ (startFocusTimer 0 0 60 1 initialUserData).1.timers.endJob =
        some ((0 : ℚ) + (60 : ℚ) * 60000, 60) := by
  refine ⟨(c6_pause_frame (startFocusTimer 0 0 60 1 initialUserData).1 300000).1,
    ((c6_pause_frame (pauseFocusTimer 300000
        (startFocusTimer 0 0 60 1 initialUserData).1).1 900000).2.2.2.1 300000
      (by norm_num [pauseFocusTimer, startFocusTimer, stopFocusTimer,
        initialUserData, initialSession])
      (by norm_num [pauseFocusTimer, startFocusTimer, stopFocusTimer,
        initialUserData, initialSession])).1,
    ((c6_pause_frame initialUserData 0).2.2.2.2 0 60 1 (by norm_num)).1⟩

/-- C7: the streak counter follows the day-difference rule against the
previous lastStudyDate: first-ever commit sets streak to 1, a commit
exactly one day after the previous one increments it, a commit on the same
day leaves it unchanged, any other gap resets it to 1; in particular
commits on days 1, 2, 3 from fresh stats yield streak 3, a further commit
on day 5 resets it to 1, and a repeated commit on day 3 leaves it at 3. -/
theorem c7_streak_rule (s : Stats) (today d : ℤ) :
    (s.lastStudyDate = none → (addCompletedSession today d s).streak = 1)
    ∧ (∀ last, s.lastStudyDate = some last → today - last = 1 →
        (addCompletedSession today d s).streak = s.streak + 1)
    ∧ (∀ last, s.lastStudyDate = some last → today = last →
        (addCompletedSession today d s).streak = s.streak)
    ∧ (∀ last, s.lastStudyDate = some last → today - last ≠ 1 → today ≠ last →
        (addCompletedSession today d s).streak = 1)
    ∧ (addCompletedSession 3 10 (addCompletedSession 2 10
        (addCompletedSession 1 10 initialStats))).streak = 3
    ∧ (addCompletedSession 5 10 (addCompletedSession 3 10 (addCompletedSession 2 10
        (addCompletedSession 1 10 initialStats)))).streak = 1
    ∧ (addCompletedSession 3 10 (addCompletedSession 3 10 (addCompletedSession 2 10
        (addCompletedSession 1 10 initialStats)))).streak =
      (addCompletedSession 3 10 (addCompletedSession 2 10
        (addCompletedSession 1 10 initialStats))).streak := by
  refine ⟨?_, ?_, ?_, ?_, ?_, ?_, ?_⟩
  · intro h
    simp [addCompletedSession, h]
  · intro last hlast hdiff
    simp [addCompletedSession, hlast, hdiff]
  · intro last hlast heq
    subst heq
    simp [addCompletedSession, hlast]
  · intro last hlast hdiff hne
    simp [addCompletedSession, hlast, hdiff, hne]
  all_goals norm_num [addCompletedSession, initialStats]

/-- Witness for C7 at concrete stats whose previous study day is 7: a
commit on day 8 increments the streak. -/
theorem c7_streak_rule_witness :
    (addCompletedSession 8 30
        { initialStats with streak := 4, lastStudyDate := some 7 }).streak =
      ({ initialStats with streak := 4, lastStudyDate := some 7 } : Stats).streak + 1 :=
  (c7_streak_rule { initialStats with streak := 4, lastStudyDate := some 7 } 8 30).2.1
    7 rfl (by norm_num)

/-- Each productivity sub-score min(25, round(value / cap * 25)) lies in
[0, 25] for a non-negative value and positive cap. -/
theorem scoreComponent_bounds (v c : ℚ) (hv : 0 ≤ v) (hc : 0 < c) :
    0 ≤ scoreComponent v c ∧ scoreComponent v c ≤ 25 := by
  constructor
  · refine le_min (by norm_num) ?_
    rw [jsRound_eq]
    refine Int.le_floor.mpr ?_
    have h0 : (0 : ℚ) ≤ v / c * 25 := by positivity
    push_cast
    linarith
  · exact min_le_left _ _

/-- C8: for non-negative daily minutes (the stats counters are naturals by
construction), the productivity score lies in [0, 100] and each of its
four components — activity against cap 120, streak against cap 7, sessions
against cap 30, tasks against cap 50 — lies in [0, 25]. -/
theorem c8_score_bounds (stats : Stats) (dailyStats : List ℤ)
    (hd : ∀ m ∈ dailyStats, 0 ≤ m) :
    (0 ≤ calculateProductivityScore stats dailyStats
      ∧ calculateProductivityScore stats dailyStats ≤ 100)
    ∧ (0 ≤ scoreComponent (((dailyStats.sum : ℤ) : ℚ) / 7) 120
      ∧ scoreComponent (((dailyStats.sum : ℤ) : ℚ) / 7) 120 ≤ 25)
    ∧ (0 ≤ scoreComponent (stats.streak : ℚ) 7
      ∧ scoreComponent (stats.streak : ℚ) 7 ≤ 25)
    ∧ (0 ≤ scoreComponent (stats.totalSessions : ℚ) 30
      ∧ scoreComponent (stats.totalSessions : ℚ) 30 ≤ 25)
    ∧ (0 ≤ scoreComponent (stats.totalCompletedTasks : ℚ) 50
      ∧ scoreComponent (stats.totalCompletedTasks : ℚ) 50 ≤ 25) := by
  have hsumz : (0 : ℤ) ≤ dailyStats.sum := List.sum_nonneg hd
  have hsum : (0 : ℚ) ≤ ((dailyStats.sum : ℤ) : ℚ) / 7 := by
    refine div_nonneg ?_ (by norm_num)
    exact_mod_cast hsumz
  have h1 := scoreComponent_bounds (((dailyStats.sum : ℤ) : ℚ) / 7) 120 hsum (by norm_num)
  have h2 := scoreComponent_bounds (stats.streak : ℚ) 7 (by positivity) (by norm_num)
  have h3 := scoreComponent_bounds (stats.totalSessions : ℚ) 30 (by positivity) (by norm_num)
  have h4 := scoreComponent_bounds (stats.totalCompletedTasks : ℚ) 50 (by positivity) (by norm_num)
  refine ⟨⟨?_, ?_⟩, h1, h2, h3, h4⟩
  · simp only [calculateProductivityScore]
    linarith [h1.1, h2.1, h3.1, h4.1]
  · simp only [calculateProductivityScore]
    linarith [h1.2, h2.2, h3.2, h4.2]

/-- Witness for C8 at concrete stats (streak 3, 5 sessions, 10 tasks) and
a concrete week of daily minutes. -/
theorem c8_score_bounds_witness :
    0 ≤ calculateProductivityScore
        { initialStats with streak := 3, totalSessions := 5, totalCompletedTasks := 10 }
        [30, 0, 60, 0, 0, 0, 0]
    ∧ calculateProductivityScore
        { initialStats with streak := 3, totalSessions := 5, totalCompletedTasks := 10 }
        [30, 0, 60, 0, 0, 0, 0] ≤ 100 :=
  (c8_score_bounds
      { initialStats with streak := 3, totalSessions := 5, totalCompletedTasks := 10 }
      [30, 0, 60, 0, 0, 0, 0] (by decide)).1

/-- C9: pauseFocusTimer fails exactly when the session phase is not
Running and resumeFocusTimer fails exactly when it is not Paused, and in
every failure case the whole per-user state is returned unchanged. -/
theorem c9_pause_resume_errors (st : UserState) (now : ℚ) :
    ((pauseFocusTimer now st).2 = false ↔ sessionState st.session ≠ .Running)
    ∧ ((pauseFocusTimer now st).2 = false → (pauseFocusTimer now st).1 = st)
    ∧ ((resumeFocusTimer now st).2 = false ↔ sessionState st.session ≠ .Paused)
    ∧ ((resumeFocusTimer now st).2 = false → (resumeFocusTimer now st).1 = st) := by
  refine ⟨?_, ?_, ?_, ?_⟩ <;>
    cases hb : st.session.isStudying <;>
      cases hp : st.session.pauseStartTime <;>
        simp [pauseFocusTimer, resumeFocusTimer, sessionState, hb, hp]

/-- Witness for C9 at the fresh Idle state: pause fails there and leaves
the state unchanged. -/
theorem c9_pause_resume_errors_witness :
    ((pauseFocusTimer 5 initialUserData).2 = false
      ↔ sessionState initialUserData.session ≠ .Running)
    ∧ (pauseFocusTimer 5 initialUserData).1 = initialUserData :=
  ⟨(c9_pause_resume_errors initialUserData 5).1,
   (c9_pause_resume_errors initialUserData 5).2.1 rfl⟩

end StudyFocus
